import Mathlib

/-!
Verification of the ORACLE streaming pipeline (`src/api/index.py`).

The development shallowly embeds the Python source in Lean:

* Python strings are `String` / `List Char`; the SSE wire format and the
  `json.dumps` serialisation of event dictionaries are modelled character by
  character, because `run_pipeline` inspects the serialised chunks with a raw
  substring test (`'"status": "token"' in chunk`).
* The external collaborators (pypdf, the OpenAI backend, FastAPI) are modelled
  by their interface contracts: a PDF payload is represented by the outcome of
  decoding and parsing it, and one streaming chat-completion call is
  represented by the finite sequence of chunk contents it delivers together
  with an optional exception that ends it.
* All functions are executable; theorems about concrete inputs evaluate.
-/

set_option maxRecDepth 20000

namespace Oracle

/-! ## List-of-characters utilities

`isPre p l` decides whether `p` is a leading block of `l`; `isSuf` the same at
the end; `occursIn p l` models Python's substring operator `p in l`.
-/

def isPre : List Char → List Char → Bool
  | [], _ => true
  | _ :: _, [] => false
  | a :: as, b :: bs => a == b && isPre as bs

def isSuf (p l : List Char) : Bool := isPre p.reverse l.reverse

def occursIn (p : List Char) : List Char → Bool
  | [] => p.isEmpty
  | c :: cs => isPre p (c :: cs) || occursIn p cs

theorem isPre_iff (p l : List Char) : isPre p l = true ↔ ∃ t, l = p ++ t := by
  induction p generalizing l with
  | nil => simp [isPre]
  | cons a as ih =>
    cases l with
    | nil => simp [isPre]
    | cons b bs =>
      simp only [isPre, Bool.and_eq_true, beq_iff_eq, ih]
      constructor
      · rintro ⟨rfl, t, rfl⟩
        exact ⟨t, rfl⟩
      · rintro ⟨t, h⟩
        cases h
        exact ⟨rfl, t, rfl⟩

theorem isSuf_iff (p l : List Char) : isSuf p l = true ↔ ∃ s, l = s ++ p := by
  unfold isSuf
  rw [isPre_iff]
  constructor
  · rintro ⟨t, h⟩
    refine ⟨t.reverse, ?_⟩
    have := congrArg List.reverse h
    simpa using this
  · rintro ⟨s, rfl⟩
    exact ⟨s.reverse, by simp⟩

theorem occursIn_iff (p l : List Char) : occursIn p l = true ↔ ∃ s t, l = s ++ p ++ t := by
  induction l with
  | nil =>
    simp only [occursIn, List.isEmpty_iff]
    constructor
    · rintro rfl
      exact ⟨[], [], rfl⟩
    · rintro ⟨s, t, h⟩
      rcases s with _ | ⟨c, s⟩
      · rcases p with _ | ⟨c, p⟩
        · rfl
        · simp at h
      · simp at h
  | cons c cs ih =>
    simp only [occursIn, Bool.or_eq_true, isPre_iff, ih]
    constructor
    · rintro (⟨t, h⟩ | ⟨s, t, h⟩)
      · exact ⟨[], t, by simpa using h⟩
      · exact ⟨c :: s, t, by simp [h]⟩
    · rintro ⟨s, t, h⟩
      rcases s with _ | ⟨c', s⟩
      · exact Or.inl ⟨t, by simpa using h⟩
      · rw [List.cons_append, List.cons_append] at h
        cases h
        exact Or.inr ⟨s, t, by simp⟩

/-- Decomposition of an occurrence inside a concatenation: the pattern lies in
the left part, in the right part, or straddles the boundary. -/
theorem occ_append_cases (p x y : List Char)
    (h : ∃ l r, x ++ y = l ++ p ++ r) :
    (∃ l r, x = l ++ p ++ r) ∨ (∃ l r, y = l ++ p ++ r) ∨
      ∃ p1 p2, p = p1 ++ p2 ∧ (∃ l, x = l ++ p1) ∧ ∃ r, y = p2 ++ r := by
  obtain ⟨l, r, h⟩ := h
  rw [List.append_assoc] at h
  rcases List.append_eq_append_iff.mp h with ⟨a, ha, hy⟩ | ⟨c, hx, hpr⟩
  · refine Or.inr (Or.inl ⟨a, r, ?_⟩)
    rw [hy]
    simp [List.append_assoc]
  · rcases List.append_eq_append_iff.mp hpr with ⟨a2, hc, hr⟩ | ⟨p2, hp, hy⟩
    · refine Or.inl ⟨l, a2, ?_⟩
      rw [hx, hc]
      simp [List.append_assoc]
    · exact Or.inr (Or.inr ⟨c, p2, hp, ⟨l, hx⟩, ⟨r, hy⟩⟩)

/-! ## The JSON string escaper

`escChar` reproduces how Python's `json.dumps` (with its default
`ensure_ascii=True`) renders one character inside a JSON string literal:
`"` and `\` get a backslash, the five short control escapes are used, the
other control characters and every character above U+007E become `\uXXXX`
sequences (a surrogate pair above U+FFFF).
-/

def hexDigitChars : List Char := "0123456789abcdef".data

def hexChar (n : Nat) : Char := (hexDigitChars.get? n).getD '0'

def hex4 (n : Nat) : List Char :=
  [hexChar (n / 4096 % 16), hexChar (n / 256 % 16), hexChar (n / 16 % 16), hexChar (n % 16)]

def escChar (c : Char) : List Char :=
  if c = '"' then ['\\', '"']
  else if c = '\\' then ['\\', '\\']
  else if c = '\n' then ['\\', 'n']
  else if c = '\r' then ['\\', 'r']
  else if c = '\t' then ['\\', 't']
  else if c.toNat = 8 then ['\\', 'b']
  else if c.toNat = 12 then ['\\', 'f']
  else if c.toNat < 32 then '\\' :: 'u' :: hex4 c.toNat
  else if c.toNat < 127 then [c]
  else if c.toNat < 65536 then '\\' :: 'u' :: hex4 c.toNat
  else
    ('\\' :: 'u' :: hex4 (55296 + (c.toNat - 65536) / 1024)) ++
      ('\\' :: 'u' :: hex4 (56320 + (c.toNat - 65536) % 1024))

def pyEscape (l : List Char) : List Char := (l.map escChar).flatten

/-! ## No naked quote

Inside an escaped JSON string value every `"` character is immediately
preceded by a backslash.  `NQ` states this through arbitrary splits; it is the
load-bearing fact behind the orchestrator's substring test.
-/

def NQ (L : List Char) : Prop :=
  ∀ l r, L = l ++ '"' :: r → ∃ l2, l = l2 ++ ['\\']

theorem NQ_of_not_mem {L : List Char} (h : '"' ∉ L) : NQ L := by
  intro l r hL
  exfalso
  apply h
  rw [hL]
  exact List.mem_append.mpr (Or.inr (List.mem_cons_self _ _))

theorem NQ_pair (c : Char) : NQ ['\\', c] := by
  intro l r h
  rcases l with _ | ⟨a, _ | ⟨b, l⟩⟩
  · rw [List.nil_append] at h
    injection h with h1 h2
    exact absurd h1 (by decide)
  · rw [List.cons_append, List.nil_append] at h
    injection h with h1 h2
    exact ⟨[], by rw [← h1]; rfl⟩
  · have := congrArg List.length h
    simp at this

theorem NQ_append {x y : List Char} (hx : NQ x) (hy : NQ y) : NQ (x ++ y) := by
  intro l r h
  rcases List.append_eq_append_iff.mp h with ⟨a, ha, hyeq⟩ | ⟨c, hxeq, hcr⟩
  · obtain ⟨l2, hl2⟩ := hy a r hyeq
    exact ⟨x ++ l2, by rw [ha, hl2, List.append_assoc]⟩
  · rcases c with _ | ⟨c0, c⟩
    · obtain ⟨l2, hl2⟩ := hy [] r (by simpa using hcr.symm)
      exact absurd (congrArg List.length hl2) (by simp)
    · rw [List.cons_append] at hcr
      injection hcr with h1 h2
      obtain ⟨l2, hl2⟩ := hx l c (by rw [hxeq, ← h1])
      exact ⟨l2, hl2⟩

theorem hexChar_mem (n : Nat) : hexChar n ∈ hexDigitChars := by
  unfold hexChar
  rcases h : hexDigitChars.get? n with _ | c
  · decide
  · simpa using List.get?_mem h

theorem hexChar_ne_quote (n : Nat) : hexChar n ≠ '"' := by
  intro hq
  have hm := hexChar_mem n
  rw [hq] at hm
  revert hm
  decide

theorem quote_not_mem_hex4 (n : Nat) : '"' ∉ hex4 n := by
  unfold hex4
  intro h
  simp only [List.mem_cons, List.not_mem_nil, or_false] at h
  rcases h with h | h | h | h <;> exact hexChar_ne_quote _ h.symm

/-- Every block produced by `escChar` is a backslash pair, the character
itself (never a quote), or one or two `\uXXXX` groups. -/
theorem escChar_shape (c : Char) :
    (∃ d, escChar c = ['\\', d]) ∨
      (c ≠ '"' ∧ escChar c = [c]) ∨
      (∃ a b, escChar c = ('\\' :: 'u' :: hex4 a) ++ ('\\' :: 'u' :: hex4 b)) ∨
      ∃ a, escChar c = '\\' :: 'u' :: hex4 a := by
  unfold escChar
  by_cases h1 : c = '"'
  · rw [if_pos h1]; exact Or.inl ⟨_, rfl⟩
  rw [if_neg h1]
  by_cases h2 : c = '\\'
  · rw [if_pos h2]; exact Or.inl ⟨_, rfl⟩
  rw [if_neg h2]
  by_cases h3 : c = '\n'
  · rw [if_pos h3]; exact Or.inl ⟨_, rfl⟩
  rw [if_neg h3]
  by_cases h4 : c = '\r'
  · rw [if_pos h4]; exact Or.inl ⟨_, rfl⟩
  rw [if_neg h4]
  by_cases h5 : c = '\t'
  · rw [if_pos h5]; exact Or.inl ⟨_, rfl⟩
  rw [if_neg h5]
  by_cases h6 : c.toNat = 8
  · rw [if_pos h6]; exact Or.inl ⟨_, rfl⟩
  rw [if_neg h6]
  by_cases h7 : c.toNat = 12
  · rw [if_pos h7]; exact Or.inl ⟨_, rfl⟩
  rw [if_neg h7]
  by_cases h8 : c.toNat < 32
  · rw [if_pos h8]; exact Or.inr (Or.inr (Or.inr ⟨_, rfl⟩))
  rw [if_neg h8]
  by_cases h9 : c.toNat < 127
  · rw [if_pos h9]; exact Or.inr (Or.inl ⟨h1, rfl⟩)
  rw [if_neg h9]
  by_cases h10 : c.toNat < 65536
  · rw [if_pos h10]; exact Or.inr (Or.inr (Or.inr ⟨_, rfl⟩))
  rw [if_neg h10]
  exact Or.inr (Or.inr (Or.inl ⟨_, _, rfl⟩))

theorem NQ_uGroup (a : Nat) : NQ ('\\' :: 'u' :: hex4 a) := by
  apply NQ_of_not_mem
  intro hm
  simp only [List.mem_cons] at hm
  rcases hm with h | h | h
  · exact absurd h.symm (by decide)
  · exact absurd h.symm (by decide)
  · exact quote_not_mem_hex4 _ h

theorem NQ_escChar (c : Char) : NQ (escChar c) := by
  rcases escChar_shape c with ⟨d, h⟩ | ⟨hq, h⟩ | ⟨a, b, h⟩ | ⟨a, h⟩
  · rw [h]; exact NQ_pair _
  · rw [h]
    apply NQ_of_not_mem
    intro hm
    simp only [List.mem_cons, List.not_mem_nil, or_false] at hm
    exact hq hm.symm
  · rw [h]; exact NQ_append (NQ_uGroup a) (NQ_uGroup b)
  · rw [h]; exact NQ_uGroup a

theorem NQ_pyEscape (l : List Char) : NQ (pyEscape l) := by
  induction l with
  | nil => exact NQ_of_not_mem (by simp [pyEscape])
  | cons c cs ih =>
    have : pyEscape (c :: cs) = escChar c ++ pyEscape cs := by
      simp [pyEscape]
    rw [this]
    exact NQ_append (NQ_escChar c) ih

/-! ## The marker fragment

`run_pipeline` recognises token chunks by testing the serialised chunk for the
substring `"status": "token"` (`needleChars`).  The six-character fragment
`s": "t` (`fragF`) sits inside that needle; showing the fragment cannot occur
in a serialised `running`/`done`/`error` chunk shows the needle cannot either.
`valueClose` is the tail `"}` plus the SSE blank line that closes every chunk
whose last JSON member is a string value.
-/

def fragF : List Char := "s\": \"t".data

def needleChars : List Char := "\"status\": \"token\"".data

def valueClose : List Char := "\"\x7d\n\n".data

theorem toFalse {b : Bool} (h : b = true → False) : b = false := by
  cases b
  · rfl
  · exact absurd rfl h

theorem F_not_in_NQ {E : List Char} (hE : NQ E) (l r : List Char)
    (h : E = l ++ fragF ++ r) : False := by
  have hF : fragF = 's' :: '"' :: (':' :: ' ' :: '"' :: 't' :: []) := by decide
  have h2 : E = (l ++ ['s']) ++ '"' :: (':' :: ' ' :: '"' :: 't' :: r) := by
    rw [h, hF]
    simp [List.append_assoc]
  obtain ⟨l2, hl2⟩ := hE _ _ h2
  have hlast := congrArg List.getLast? hl2
  rw [List.getLast?_concat, List.getLast?_concat] at hlast
  exact absurd hlast (by decide)

theorem no_F_tail {E : List Char} (hE : NQ E) :
    occursIn fragF (E ++ valueClose) = false := by
  apply toFalse
  intro h
  obtain ⟨s, t, hst⟩ := (occursIn_iff _ _).mp h
  rcases occ_append_cases fragF E valueClose ⟨s, t, hst⟩ with
    ⟨l, r, hE2⟩ | ⟨l, r, hB⟩ | ⟨p1, p2, hp, ⟨l, hEl⟩, ⟨r, hBr⟩⟩
  · exact F_not_in_NQ hE l r hE2
  · exact absurd ((occursIn_iff _ _).mpr ⟨l, r, hB⟩) (by decide)
  · have hlen : p1.length ≤ 6 := by
      have := congrArg List.length hp
      simp [fragF] at this
      omega
    have hp1 : p1 = fragF.take p1.length := by rw [hp, List.take_left]
    have hp2 : p2 = fragF.drop p1.length := by rw [hp, List.drop_left]
    have hpre : isPre p2 valueClose = true := (isPre_iff _ _).mpr ⟨r, hBr⟩
    set n := p1.length with hn
    interval_cases n
    · rw [hp2] at hpre
      exact absurd hpre (by decide)
    · rw [hp2] at hpre
      exact absurd hpre (by decide)
    · rw [hp2] at hpre
      exact absurd hpre (by decide)
    · rw [hp2] at hpre
      exact absurd hpre (by decide)
    · rw [hp2] at hpre
      exact absurd hpre (by decide)
    · rw [hp2] at hpre
      exact absurd hpre (by decide)
    · have hp1' : p1 = fragF := by
        rw [hp1]
        decide
      exact F_not_in_NQ hE l [] (by rw [hEl, hp1']; simp)

theorem no_F_wrapped (A : List Char) {E : List Char} (hE : NQ E)
    (hA : occursIn fragF A = false)
    (hS : ∀ n, 0 < n → n ≤ 6 → isSuf (fragF.take n) A = false) :
    occursIn fragF (A ++ (E ++ valueClose)) = false := by
  apply toFalse
  intro h
  obtain ⟨s, t, hst⟩ := (occursIn_iff _ _).mp h
  rcases occ_append_cases fragF A (E ++ valueClose) ⟨s, t, hst⟩ with
    ⟨l, r, hA2⟩ | ⟨l, r, hT⟩ | ⟨p1, p2, hp, ⟨l, hAl⟩, ⟨r, hTr⟩⟩
  · rw [(occursIn_iff _ _).mpr ⟨l, r, hA2⟩] at hA
    exact absurd hA (by decide)
  · have htrue : occursIn fragF (E ++ valueClose) = true := (occursIn_iff _ _).mpr ⟨l, r, hT⟩
    rw [no_F_tail hE] at htrue
    exact absurd htrue (by decide)
  · have hlen : p1.length ≤ 6 := by
      have := congrArg List.length hp
      simp [fragF] at this
      omega
    have hp1 : p1 = fragF.take p1.length := by rw [hp, List.take_left]
    have hsuf : isSuf p1 A = true := (isSuf_iff _ _).mpr ⟨l, hAl⟩
    rcases Nat.eq_zero_or_pos p1.length with hz | hpos
    · have hp1' : p1 = [] := List.length_eq_zero.mp hz
      have hp2 : p2 = fragF := by
        rw [hp1'] at hp
        simpa using hp.symm
      have : occursIn fragF (E ++ valueClose) = true :=
        (occursIn_iff _ _).mpr ⟨[], r, by rw [hTr, hp2]; simp⟩
      rw [no_F_tail hE] at this
      exact absurd this (by decide)
    · rw [hp1] at hsuf
      rw [hS p1.length hpos hlen] at hsuf
      exact absurd hsuf (by decide)

theorem frag_of_needle {L : List Char} (h : occursIn needleChars L = true) :
    occursIn fragF L = true := by
  obtain ⟨s, t, hst⟩ := (occursIn_iff _ _).mp h
  refine (occursIn_iff _ _).mpr ⟨s ++ "\"statu".data, "oken\"".data ++ t, ?_⟩
  rw [hst]
  have hsplit : needleChars = "\"statu".data ++ fragF ++ "oken\"".data := by decide
  rw [hsplit]
  simp [List.append_assoc]

/-! ## Stream events and their SSE serialisation

A `Event` is one chunk of the server-sent event stream: the four
per-step records that `index.py` builds as Python dictionaries and renders
with `sse(event) = f"data: \x7bjson.dumps(event)\x7d\n\n"`, plus the final
raw sentinel line `data: [DONE]\n\n`.  `serializeEvent` reproduces, character
by character, what `json.dumps` produces for those dictionaries (Python
preserves insertion order of the keys and uses the separators `", "` and
`": "`).
-/

inductive Event where
  | running (agent : String)
  | token (agent : String) (tok : String)
  | done (agent : String) (output : String)
  | error (agent : String) (err : String)
  | terminator
deriving DecidableEq

def serializeEvent : Event → List Char
  | .running a =>
      "data: \x7b\"agent\": \"".data ++ pyEscape a.data ++
        "\", \"status\": \"running\"\x7d\n\n".data
  | .token a t =>
      "data: \x7b\"agent\": \"".data ++ pyEscape a.data ++
        "\", \"status\": \"token\", \"token\": \"".data ++ pyEscape t.data ++
        "\"\x7d\n\n".data
  | .done a o =>
      "data: \x7b\"agent\": \"".data ++ pyEscape a.data ++
        "\", \"status\": \"done\", \"output\": \"".data ++ pyEscape o.data ++
        "\"\x7d\n\n".data
  | .error a e =>
      "data: \x7b\"agent\": \"".data ++ pyEscape a.data ++
        "\", \"status\": \"error\", \"error\": \"".data ++ pyEscape e.data ++
        "\"\x7d\n\n".data
  | .terminator => "data: [DONE]\n\n".data

def AGENT_KEYS : List String := ["profile_summary", "deep_research", "fitness_eval", "strategy"]

/-- The substring test recognises every serialised token chunk: the needle is
spelled out verbatim between the two JSON keys. -/
theorem needle_in_token (a t : String) :
    occursIn needleChars (serializeEvent (Event.token a t)) = true := by
  refine (occursIn_iff _ _).mpr
    ⟨"data: \x7b\"agent\": \"".data ++ pyEscape a.data ++ "\", ".data,
      ", \"token\": \"".data ++ pyEscape t.data ++ "\"\x7d\n\n".data, ?_⟩
  simp [serializeEvent, needleChars, List.append_assoc]

theorem needle_not_running {k : String} (hk : k ∈ AGENT_KEYS) :
    occursIn needleChars (serializeEvent (Event.running k)) = false := by
  fin_cases hk <;> decide

theorem serialize_done_eq (k o : String) (hkey : pyEscape k.data = k.data) :
    serializeEvent (Event.done k o) =
      ("data: \x7b\"agent\": \"".data ++ k.data ++
        "\", \"status\": \"done\", \"output\": \"".data) ++
        (pyEscape o.data ++ valueClose) := by
  simp only [serializeEvent, valueClose, hkey]
  simp [List.append_assoc]

theorem serialize_error_eq (k e : String) (hkey : pyEscape k.data = k.data) :
    serializeEvent (Event.error k e) =
      ("data: \x7b\"agent\": \"".data ++ k.data ++
        "\", \"status\": \"error\", \"error\": \"".data) ++
        (pyEscape e.data ++ valueClose) := by
  simp only [serializeEvent, valueClose, hkey]
  simp [List.append_assoc]

theorem needle_not_done {k : String} (hk : k ∈ AGENT_KEYS) (o : String) :
    occursIn needleChars (serializeEvent (Event.done k o)) = false := by
  apply toFalse
  intro h
  have hfrag := frag_of_needle h
  fin_cases hk <;>
  · rw [serialize_done_eq _ o (by decide)] at hfrag
    rw [no_F_wrapped _ (NQ_pyEscape o.data) (by decide)
      (by intro n h1 h2; interval_cases n <;> decide)] at hfrag
    exact absurd hfrag (by decide)

theorem needle_not_error {k : String} (hk : k ∈ AGENT_KEYS) (e : String) :
    occursIn needleChars (serializeEvent (Event.error k e)) = false := by
  apply toFalse
  intro h
  have hfrag := frag_of_needle h
  fin_cases hk <;>
  · rw [serialize_error_eq _ e (by decide)] at hfrag
    rw [no_F_wrapped _ (NQ_pyEscape e.data) (by decide)
      (by intro n h1 h2; interval_cases n <;> decide)] at hfrag
    exact absurd hfrag (by decide)

/-! ## One streaming model call (`llm_stream`)

`StreamSpec` records the observable behaviour of one
`client.chat.completions.create(..., stream=True)` call: the sequence of
`chunk.choices[0].delta.content` values delivered (`none` models Python
`None`), and `err` an exception (its message) raised by the call or by the
iteration after those chunks were delivered (`none` means the stream
finished normally).

`llm_stream` mirrors the generator in `index.py`: truthy tokens are
accumulated and emitted as `token` chunks, then either a `done` chunk with
the joined accumulator or an `error` chunk — the `try/except` converts any
exception into the latter.
-/

structure StreamSpec where
  chunks : List (Option String)
  err : Option String

def truthyToks (b : StreamSpec) : List String :=
  b.chunks.filterMap (fun c =>
    match c with
    | some s => if s = "" then none else some s
    | none => none)

def llm_stream (agent_key : String) (b : StreamSpec) : List Event :=
  (truthyToks b).map (Event.token agent_key) ++
    (match b.err with
     | none => [Event.done agent_key (String.join (truthyToks b))]
     | some e => [Event.error agent_key e])

/-- Models `json.loads(chunk[6:])["token"]` applied to one serialised chunk:
by the round-trip contract of Python's `json` module, `loads` of a `dumps`
output (the trailing `\n\n` is ignored whitespace) returns the original
dictionary, and the `["token"]` lookup yields the token value for a token
chunk and raises `KeyError` (here `none`) for every other chunk. -/
def jsonChunkToken : Event → Option String
  | .token _ t => some t
  | _ => none

/-- The per-step relay loop of `run_pipeline`: each chunk whose serialised
form contains `"status": "token"` has its token re-parsed and appended to the
step's accumulator list before the chunk is yielded.  Returns the chunks
yielded and `some` accumulated tokens, or `none` when the `KeyError` branch
fires (the generator then dies, yielding nothing further). -/
def stepRelay : List Event → List Event × Option (List String)
  | [] => ([], some [])
  | e :: rest =>
    if occursIn needleChars (serializeEvent e) then
      match jsonChunkToken e with
      | some t =>
        let p := stepRelay rest
        (e :: p.1, p.2.map (fun acc => t :: acc))
      | none => ([], none)
    else
      let p := stepRelay rest
      (e :: p.1, p.2)

theorem stepRelay_run {k : String} (toks : List String) (term : Event)
    (hterm : occursIn needleChars (serializeEvent term) = false) :
    stepRelay (toks.map (Event.token k) ++ [term]) =
      (toks.map (Event.token k) ++ [term], some toks) := by
  induction toks with
  | nil =>
    simp [stepRelay, hterm]
  | cons t ts ih =>
    simp only [List.map_cons, List.cons_append]
    simp [stepRelay, needle_in_token, jsonChunkToken, ih]

/-- The relay loop never crashes on a well-formed model stream and captures
exactly the truthy tokens: the substring test matches the token chunks and
only those. -/
theorem stepRelay_llm (k : String) (hk : k ∈ AGENT_KEYS) (b : StreamSpec) :
    stepRelay (llm_stream k b) = (llm_stream k b, some (truthyToks b)) := by
  unfold llm_stream
  cases herr : b.err with
  | none => exact stepRelay_run _ _ (needle_not_done hk _)
  | some e => exact stepRelay_run _ _ (needle_not_error hk _)

def tokenVals : List Event → List String := List.filterMap jsonChunkToken

def doneOutputs : List Event → List String :=
  List.filterMap (fun e =>
    match e with
    | .done _ o => some o
    | _ => none)

def errorEvents : List Event → List Event :=
  List.filter (fun e =>
    match e with
    | .error _ _ => true
    | _ => false)

theorem tokenVals_llm (k : String) (b : StreamSpec) :
    tokenVals (llm_stream k b) = truthyToks b := by
  unfold llm_stream tokenVals
  rw [List.filterMap_append]
  have h1 : ∀ l : List String, List.filterMap jsonChunkToken (l.map (Event.token k)) = l := by
    intro l
    induction l with
    | nil => rfl
    | cons x xs ih => simp [jsonChunkToken, ih]
  rw [h1]
  cases b.err <;> simp [jsonChunkToken]

theorem doneOutputs_llm (k : String) (b : StreamSpec) (h : b.err = none) :
    doneOutputs (llm_stream k b) = [String.join (truthyToks b)] := by
  unfold llm_stream doneOutputs
  rw [h, List.filterMap_append]
  have h1 : List.filterMap
      (fun e =>
        match e with
        | Event.done _ o => some o
        | _ => none)
      ((truthyToks b).map (Event.token k)) = ([] : List String) := by
    induction truthyToks b with
    | nil => rfl
    | cons x xs ih => simpa using ih
  rw [h1]
  rfl

/-- The `error` events one model stream contributes: none when it completes
normally, exactly one on its own key when it raises. -/
def streamErr (k : String) (b : StreamSpec) : List Event :=
  match b.err with
  | none => []
  | some e => [Event.error k e]

theorem errorEvents_llm (k : String) (b : StreamSpec) :
    errorEvents (llm_stream k b) = streamErr k b := by
  unfold streamErr
  unfold llm_stream errorEvents
  rw [List.filter_append]
  have h1 : List.filter
      (fun e =>
        match e with
        | Event.error _ _ => true
        | _ => false)
      ((truthyToks b).map (Event.token k)) = ([] : List Event) := by
    induction truthyToks b with
    | nil => rfl
    | cons x xs ih => simpa using ih
  rw [h1]
  cases b.err <;> rfl

theorem terminator_not_mem_llm (k : String) (b : StreamSpec) :
    Event.terminator ∉ llm_stream k b := by
  unfold llm_stream
  intro h
  rcases List.mem_append.mp h with h | h
  · obtain ⟨t, _, ht⟩ := List.mem_map.mp h
    exact Event.noConfusion ht
  · cases herr : b.err <;> rw [herr] at h <;> simp at h

/-! ## PDF extraction (`extract_pdf_text`)

A `Pdf` value abstracts one base64 payload by the outcome of
`base64.b64decode` plus `PdfReader`: either the parsed list of per-page
`extract_text()` results (`none` models a page returning Python `None`), or
an exception message from decoding/parsing, or the `ImportError` path when
pypdf is absent.  `pyStrip` models `str.strip()` on the ASCII whitespace
characters (exotic Unicode whitespace is outside the model).
-/

inductive Pdf where
  | pages (ps : List (Option String))
  | parseFail (msg : String)
  | noPypdf

def isPySpace (c : Char) : Bool :=
  c = ' ' || c = '\t' || c = '\n' || c = '\r' || c = '\x0b' || c = '\x0c'

def pyStrip (s : String) : String :=
  String.mk (((s.data.dropWhile isPySpace).reverse.dropWhile isPySpace).reverse)

def pagesJoined (ps : List (Option String)) : String :=
  String.intercalate "\n\n" (ps.map (fun p => p.getD ""))

def emptyPdfMsg : String := "PDF is empty or image-only (scanned PDF not supported)."

def extract_pdf_text : Pdf → Except String String
  | .parseFail m => .error m
  | .noPypdf => .error "pypdf not installed. Run: pip install pypdf"
  | .pages ps =>
    let text := pyStrip (pagesJoined ps)
    if text = "" then .error emptyPdfMsg
    else .ok text

/-- Models `get_client`: fails exactly when `OPENAI_API_KEY` is unset or
empty (Python truthiness of `os.getenv`), otherwise the `AsyncOpenAI` client
is constructed.  The client object carries no observable state here; the
behaviour of the calls made with it lives in `World`. -/
def get_client (apiKey : Option String) : Except String Unit :=
  if apiKey.getD "" = "" then .error "OPENAI_API_KEY is not set."
  else .ok ()

/-! ## Agent instructions and prompt construction -/

def SYS_SUMMARIZER : String :=
  "\nYou are an expert talent intelligence analyst specialising in reading LinkedIn profiles.\nYour job: analyse the HR manager's LinkedIn profile text and extract structured intelligence.\n\nCONTEXT: A job candidate wants to reach out to this HR manager. Your summary will be used\nby downstream agents to research the company and craft a personalised outreach strategy.\n\nRULES:\n- Use markdown: ## for section headers, **bold** for names/titles/companies, - for bullets\n- Be concise: 3-5 bullets per section, no waffle\n- Focus on signals that would help a candidate connect with this person personally"

def SYS_RESEARCHER : String :=
  "\nYou are a corporate intelligence researcher. Your job: build a deep intelligence brief\non the HR manager's company so a job candidate can reference specific, accurate details\nin their outreach message, making it feel informed and non-generic.\n\nRULES:\n- Use markdown: ## for sections, **bold** for key facts, - for bullets\n- 4-6 bullets per section, specific and factual\n- If you lack live data, reason clearly from the profile context and known industry patterns\n- Flag anything a candidate could use as a natural conversation hook"

def SYS_EVALUATOR : String :=
  "\nYou are a career strategist and resume fitness evaluator. Your job: cross-reference\nthe CANDIDATE'S resume against the HR manager's company and role needs.\n\nIMPORTANT DIRECTION: The CANDIDATE is reaching out TO the HR manager, not the other way around.\nEvaluate the candidate's fit from the candidate's perspective.\n\nRULES:\n- Use markdown: ## for sections, **bold** for key points\n- Be honest and specific: flag real gaps, don't just be positive\n- End with ## Fit Score: X/10 and a one-sentence justification"

def SYS_STRATEGIST : String :=
  "\nYou are a master job-search outreach strategist. Your job: write a strategy and a\nready-to-send message FROM the candidate TO the HR manager.\n\nCRITICAL DIRECTION - never mix this up:\n- SENDER   = the JOB CANDIDATE (whose resume you have)\n- RECEIVER = the HR MANAGER (whose LinkedIn profile was analysed)\n- The message must be written in FIRST PERSON as the CANDIDATE, addressed to the HR MANAGER by name\n\nRULES:\n- Use ## APPROACH STRATEGY and ## OUTREACH MESSAGE as section headers\n- Strategy: 4 bullets (channel, timing, conversation hook, what to avoid)\n- Message: under 150 words, written AS the candidate TO the HR manager\n- Do NOT use placeholder names like [Your Name] — sign off with \"Best regards,\" only\n- Reference specific real details from the candidate's background AND the company research\n- Lead with value the candidate offers, not a generic compliment\n- End with a single low-friction call to action (e.g. \"Would a 15-minute call this week work?\")"

/-- The f-string argument of agent 1 (`profile_summary`). -/
def user1 (linkedin_text : String) : String :=
  "\nAnalyse this LinkedIn profile PDF text and extract a structured summary.\n\nLINKEDIN PROFILE TEXT:\n"
    ++ linkedin_text ++
    "\n\nCover: name & title, career history (key milestones only), core skills,\neducation, personality signals, what they value in candidates.\n"

/-- The f-string argument of agent 2 (`deep_research`): it interpolates only
the captured output of agent 1. -/
def user2 (profile_summary_text : String) : String :=
  "\nResearch this HR manager's company based on their profile.\n\nHR MANAGER PROFILE:\n"
    ++ profile_summary_text ++
    "\n\nCover: company overview, recent news, culture signals, current hiring trends,\nstrategic priorities, one unique angle a candidate could use in outreach.\nIf live data unavailable, reason from context and industry knowledge.\n"

/-- The f-string argument of agent 3 (`fitness_eval`). -/
def user3 (resume_block profile_summary_text deep_research_text : String) : String :=
  "\n" ++ resume_block ++
    "\n\nHR MANAGER PROFILE:\n" ++ profile_summary_text ++
    "\n\nCOMPANY RESEARCH:\n" ++ deep_research_text ++
    "\n\nEvaluate: skills alignment, experience relevance, culture fit, gaps,\nunique value proposition, fit score 1-10 with justification.\n"

/-- The f-string argument of agent 4 (`strategy`). -/
def user4 (resume_block profile_summary_text deep_research_text fitness_eval_text : String) : String :=
  "\nYou are helping THE CANDIDATE write a message TO the HR manager.\nTHE CANDIDATE is the sender. THE HR MANAGER is the recipient.\n\n--- CANDIDATE'S BACKGROUND (the SENDER) ---\n"
    ++ resume_block ++
    "\n\n--- HR MANAGER PROFILE (the RECIPIENT) ---\n" ++ profile_summary_text ++
    "\n\n--- COMPANY RESEARCH ---\n" ++ deep_research_text ++
    "\n\n--- FITNESS EVALUATION ---\n" ++ fitness_eval_text ++
    "\n\nNow produce:\n1. ## APPROACH STRATEGY — 4 bullets on how the candidate should approach outreach\n2. ## OUTREACH MESSAGE — a complete message written in first person AS the candidate,\n   addressed to the HR manager by their first name. Under 150 words. No placeholder text.\n"

/-- The `resume_block` conditional of `run_pipeline`. -/
def rbOf (resume : String) : String :=
  if pyStrip resume ≠ "" then "CANDIDATE RESUME:\n" ++ resume
  else "No resume provided — evaluate generally."

/-- Resume resolution: `if resume_pdf:` re-binds `resume` to the extraction
result (the `Option` is `none` when the request field was the empty-string
default, Python falsiness). -/
def resumeOf (resume : String) : Option Pdf → Except String String
  | none => Except.ok resume
  | some rp => extract_pdf_text rp

/-! ## The pipeline orchestrator (`run_pipeline`) -/

/-- The per-request environment: the `OPENAI_API_KEY` value and the
behaviour of the (at most) four streaming calls, in call order. -/
structure World where
  apiKey : Option String
  s1 : StreamSpec
  s2 : StreamSpec
  s3 : StreamSpec
  s4 : StreamSpec

/-- The observable result of one `run_pipeline` generator: the chunks it
yields, in order, and — as a ghost observation — the (agent key, system
instruction, user prompt) triples of the model calls it issued. -/
structure PipelineRun where
  events : List Event
  calls : List (String × String × String)

def fanout (msg : String) : List Event :=
  AGENT_KEYS.map (fun k => Event.error k msg) ++ [Event.terminator]

def run_pipeline (linkedin_pdf : Pdf) (resume : String) (resume_pdf : Option Pdf)
    (w : World) : PipelineRun :=
  match extract_pdf_text linkedin_pdf with
  | .error e => { events := fanout ("LinkedIn PDF: " ++ e), calls := [] }
  | .ok linkedin_text =>
    match resumeOf resume resume_pdf with
    | .error e => { events := fanout ("Resume PDF: " ++ e), calls := [] }
    | .ok resume2 =>
      match get_client w.apiKey with
      | .error e => { events := fanout e, calls := [] }
      | .ok _ =>
        let resume_block := rbOf resume2
        let call1 := ("profile_summary", SYS_SUMMARIZER, user1 linkedin_text)
        match stepRelay (llm_stream "profile_summary" w.s1) with
        | (ev1, none) =>
          { events := Event.running "profile_summary" :: ev1, calls := [call1] }
        | (ev1, some toks1) =>
          let profile_summary_text := String.join toks1
          let call2 := ("deep_research", SYS_RESEARCHER, user2 profile_summary_text)
          match stepRelay (llm_stream "deep_research" w.s2) with
          | (ev2, none) =>
            { events := Event.running "profile_summary" ::
                (ev1 ++ Event.running "deep_research" :: ev2),
              calls := [call1, call2] }
          | (ev2, some toks2) =>
            let deep_research_text := String.join toks2
            let call3 := ("fitness_eval", SYS_EVALUATOR,
              user3 resume_block profile_summary_text deep_research_text)
            match stepRelay (llm_stream "fitness_eval" w.s3) with
            | (ev3, none) =>
              { events := Event.running "profile_summary" ::
                  (ev1 ++ Event.running "deep_research" ::
                    (ev2 ++ Event.running "fitness_eval" :: ev3)),
                calls := [call1, call2, call3] }
            | (ev3, some toks3) =>
              let fitness_eval_text := String.join toks3
              let call4 := ("strategy", SYS_STRATEGIST,
                user4 resume_block profile_summary_text deep_research_text fitness_eval_text)
              { events := Event.running "profile_summary" ::
                  (ev1 ++ Event.running "deep_research" ::
                    (ev2 ++ Event.running "fitness_eval" ::
                      (ev3 ++ Event.running "strategy" ::
                        (llm_stream "strategy" w.s4 ++ [Event.terminator])))),
                calls := [call1, call2, call3, call4] }

/-! ## Transport boundary (`/api/run`) -/

/-- A raw request body: each field either absent from the JSON object or
present with a string value. -/
structure RawRun where
  linkedin_pdf : Option String
  resume : Option String
  resume_pdf : Option String

structure RunRequest where
  linkedin_pdf : String
  resume : String
  resume_pdf : String
deriving DecidableEq

inductive HttpOutcome where
  | errorResponse (status : Nat) (msg : String)
  | streamResponse (req : RunRequest)
deriving DecidableEq

/-- Modelled from the framework contract (FastAPI with a pydantic body
model, outside src/): a body that lacks the required `linkedin_pdf` field is
rejected with HTTP 422 before the route handler runs; the optional fields
default to the empty string. -/
def validate_request (r : RawRun) : Except (Nat × String) RunRequest :=
  match r.linkedin_pdf with
  | none => .error (422, "Field required")
  | some lp => .ok ⟨lp, r.resume.getD "", r.resume_pdf.getD ""⟩

/-- The body of the `/api/run` route handler: an explicit 400 for a present
but empty `linkedin_pdf`, otherwise a `StreamingResponse` wrapping
`run_pipeline`. -/
def run_outreach (req : RunRequest) : HttpOutcome :=
  if req.linkedin_pdf = "" then .errorResponse 400 "linkedin_pdf is required."
  else .streamResponse req

/-- Full ingress handling of a raw body: framework validation, then the
route handler. -/
def handle_run (r : RawRun) : HttpOutcome :=
  match validate_request r with
  | .error (s, m) => .errorResponse s m
  | .ok req => run_outreach req

/-! ## Shape lemmas for `run_pipeline` -/

theorem shape_abort_linkedin (lp : Pdf) (resume : String) (rpdf : Option Pdf) (w : World)
    {e : String} (hx : extract_pdf_text lp = .error e) :
    run_pipeline lp resume rpdf w =
      { events := fanout ("LinkedIn PDF: " ++ e), calls := [] } := by
  unfold run_pipeline
  rw [hx]

theorem shape_abort_resume (lp : Pdf) (resume : String) (rpdf : Option Pdf) (w : World)
    {lt e : String} (hx : extract_pdf_text lp = .ok lt)
    (hr : resumeOf resume rpdf = .error e) :
    run_pipeline lp resume rpdf w =
      { events := fanout ("Resume PDF: " ++ e), calls := [] } := by
  unfold run_pipeline
  rw [hx, hr]

theorem shape_abort_client (lp : Pdf) (resume : String) (rpdf : Option Pdf) (w : World)
    {lt R e : String} (hx : extract_pdf_text lp = .ok lt)
    (hr : resumeOf resume rpdf = .ok R)
    (hc : get_client w.apiKey = .error e) :
    run_pipeline lp resume rpdf w = { events := fanout e, calls := [] } := by
  unfold run_pipeline
  rw [hx, hr, hc]

/-- On the non-aborted path the four steps run in order, each contributing
its `running` chunk followed by its full model stream, the terminator closes
the stream, and the four calls carry the prompts built from the captured
(possibly partial) texts. -/
theorem shape_ok (lp : Pdf) (resume : String) (rpdf : Option Pdf) (w : World)
    {lt R : String}
    (hx : extract_pdf_text lp = .ok lt)
    (hr : resumeOf resume rpdf = .ok R)
    (hc : get_client w.apiKey = .ok ()) :
    run_pipeline lp resume rpdf w =
      { events := Event.running "profile_summary" ::
          (llm_stream "profile_summary" w.s1 ++ Event.running "deep_research" ::
            (llm_stream "deep_research" w.s2 ++ Event.running "fitness_eval" ::
              (llm_stream "fitness_eval" w.s3 ++ Event.running "strategy" ::
                (llm_stream "strategy" w.s4 ++ [Event.terminator])))),
        calls := [("profile_summary", SYS_SUMMARIZER, user1 lt),
          ("deep_research", SYS_RESEARCHER, user2 (String.join (truthyToks w.s1))),
          ("fitness_eval", SYS_EVALUATOR,
            user3 (rbOf R) (String.join (truthyToks w.s1)) (String.join (truthyToks w.s2))),
          ("strategy", SYS_STRATEGIST,
            user4 (rbOf R) (String.join (truthyToks w.s1)) (String.join (truthyToks w.s2))
              (String.join (truthyToks w.s3)))] } := by
  unfold run_pipeline
  rw [hx, hr, hc, stepRelay_llm "profile_summary" (by decide) w.s1,
    stepRelay_llm "deep_research" (by decide) w.s2,
    stepRelay_llm "fitness_eval" (by decide) w.s3]

theorem shape_ok_events (lp : Pdf) (resume : String) (rpdf : Option Pdf) (w : World)
    {lt R : String}
    (hx : extract_pdf_text lp = .ok lt)
    (hr : resumeOf resume rpdf = .ok R)
    (hc : get_client w.apiKey = .ok ()) :
    (run_pipeline lp resume rpdf w).events =
      Event.running "profile_summary" ::
        (llm_stream "profile_summary" w.s1 ++ Event.running "deep_research" ::
          (llm_stream "deep_research" w.s2 ++ Event.running "fitness_eval" ::
            (llm_stream "fitness_eval" w.s3 ++ Event.running "strategy" ::
              (llm_stream "strategy" w.s4 ++ [Event.terminator])))) := by
  rw [shape_ok lp resume rpdf w hx hr hc]

theorem shape_ok_calls (lp : Pdf) (resume : String) (rpdf : Option Pdf) (w : World)
    {lt R : String}
    (hx : extract_pdf_text lp = .ok lt)
    (hr : resumeOf resume rpdf = .ok R)
    (hc : get_client w.apiKey = .ok ()) :
    (run_pipeline lp resume rpdf w).calls =
      [("profile_summary", SYS_SUMMARIZER, user1 lt),
        ("deep_research", SYS_RESEARCHER, user2 (String.join (truthyToks w.s1))),
        ("fitness_eval", SYS_EVALUATOR,
          user3 (rbOf R) (String.join (truthyToks w.s1)) (String.join (truthyToks w.s2))),
        ("strategy", SYS_STRATEGIST,
          user4 (rbOf R) (String.join (truthyToks w.s1)) (String.join (truthyToks w.s2))
            (String.join (truthyToks w.s3)))] := by
  rw [shape_ok lp resume rpdf w hx hr hc]

/-! ## Projection of the stream onto one step key -/

def agentOf : Event → Option String
  | .running a => some a
  | .token a _ => some a
  | .done a _ => some a
  | .error a _ => some a
  | .terminator => none

def eventsFor (k : String) (evs : List Event) : List Event :=
  evs.filter (fun e => agentOf e == some k)

theorem eventsFor_llm_self (k : String) (b : StreamSpec) :
    eventsFor k (llm_stream k b) = llm_stream k b := by
  apply List.filter_eq_self.mpr
  intro e he
  unfold llm_stream at he
  rcases List.mem_append.mp he with h | h
  · obtain ⟨t, _, rfl⟩ := List.mem_map.mp h
    simp [agentOf]
  · cases herr : b.err <;> rw [herr] at h <;> simp at h <;> subst h <;> simp [agentOf]

theorem eventsFor_llm_other {k k' : String} (hne : k' ≠ k) (b : StreamSpec) :
    eventsFor k (llm_stream k' b) = [] := by
  apply List.filter_eq_nil_iff.mpr
  intro e he
  unfold llm_stream at he
  have hag : agentOf e = some k' := by
    rcases List.mem_append.mp he with h | h
    · obtain ⟨t, _, rfl⟩ := List.mem_map.mp h
      rfl
    · cases herr : b.err <;> rw [herr] at h <;> simp at h <;> subst h <;> rfl
  simp [hag, hne]

theorem eventsFor_block_self (k : String) (b : StreamSpec) (rest : List Event) :
    eventsFor k (Event.running k :: (llm_stream k b ++ rest)) =
      Event.running k :: (llm_stream k b ++ eventsFor k rest) := by
  unfold eventsFor
  rw [List.filter_cons_of_pos (by simp [agentOf]), List.filter_append]
  rw [show List.filter (fun e => agentOf e == some k) (llm_stream k b) = llm_stream k b from
    eventsFor_llm_self k b]

theorem eventsFor_block_other {k k' : String} (hne : k' ≠ k) (b : StreamSpec)
    (rest : List Event) :
    eventsFor k (Event.running k' :: (llm_stream k' b ++ rest)) = eventsFor k rest := by
  unfold eventsFor
  rw [List.filter_cons_of_neg (by simp [agentOf, hne]), List.filter_append]
  rw [show List.filter (fun e => agentOf e == some k) (llm_stream k' b) = [] from
    eventsFor_llm_other hne b]
  rfl

theorem eventsFor_terminator (k : String) : eventsFor k [Event.terminator] = [] := rfl

theorem eventsFor_fanout {k : String} (hk : k ∈ AGENT_KEYS) (m : String) :
    eventsFor k (fanout m) = [Event.error k m] := by
  fin_cases hk <;> rfl

theorem errorEvents_cons_running (a : String) (l : List Event) :
    errorEvents (Event.running a :: l) = errorEvents l := by
  unfold errorEvents
  rw [List.filter_cons_of_neg (by simp)]

theorem errorEvents_append (l1 l2 : List Event) :
    errorEvents (l1 ++ l2) = errorEvents l1 ++ errorEvents l2 := by
  unfold errorEvents
  exact List.filter_append _ _

/-! ## Claims -/

/-- C1 (amended): for every step key, when the pipeline is not aborted before
the steps run (both extractions and client initialisation succeed), the event
stream for that key is exactly one `running`, then zero or more `token`
events in arrival order, then exactly one terminal (`done` or `error`); when
the pipeline aborts at extraction or at the credential check, the key's
stream is instead exactly one `error` event with no `running` at all — so
the original claim's "exactly one `running` event" fails on abort paths, but
"never zero terminal events for a key that appears, never two" holds
everywhere. -/
theorem C1_per_key_grammar (lp : Pdf) (resume : String) (rpdf : Option Pdf)
    (w : World) (k : String) (hk : k ∈ AGENT_KEYS) :
    (∀ lt R, extract_pdf_text lp = .ok lt → resumeOf resume rpdf = .ok R →
      get_client w.apiKey = .ok () →
      ∃ toks term, eventsFor k (run_pipeline lp resume rpdf w).events =
          Event.running k :: (List.map (Event.token k) toks ++ [term]) ∧
        ((∃ o, term = Event.done k o) ∨ ∃ m, term = Event.error k m)) ∧
    (((∃ e, extract_pdf_text lp = .error e) ∨
        (∃ e, resumeOf resume rpdf = .error e) ∨
        ∃ e, get_client w.apiKey = .error e) →
      ∃ m, eventsFor k (run_pipeline lp resume rpdf w).events = [Event.error k m]) := by
  constructor
  case right =>
    intro habort
    rcases hx : extract_pdf_text lp with e' | lt
    · rw [shape_abort_linkedin lp resume rpdf w hx]
      exact ⟨_, eventsFor_fanout hk _⟩
    rcases hr : resumeOf resume rpdf with e' | R
    · rw [shape_abort_resume lp resume rpdf w hx hr]
      exact ⟨_, eventsFor_fanout hk _⟩
    rcases hc : get_client w.apiKey with e' | u
    · rw [shape_abort_client lp resume rpdf w hx hr hc]
      exact ⟨_, eventsFor_fanout hk _⟩
    cases u
    exfalso
    rcases habort with ⟨e, he⟩ | ⟨e, he⟩ | ⟨e, he⟩
    · rw [hx] at he
      exact Except.noConfusion he
    · rw [hr] at he
      exact Except.noConfusion he
    · rw [hc] at he
      exact Except.noConfusion he
  case left =>
    intro lt R hx hr hc
    fin_cases hk
    · rw [shape_ok_events lp resume rpdf w hx hr hc,
        eventsFor_block_self,
        eventsFor_block_other (show "deep_research" ≠ "profile_summary" from by decide),
        eventsFor_block_other (show "fitness_eval" ≠ "profile_summary" from by decide),
        eventsFor_block_other (show "strategy" ≠ "profile_summary" from by decide),
        eventsFor_terminator, List.append_nil]
      cases herr : w.s1.err with
      | none =>
        refine ⟨truthyToks w.s1,
          Event.done "profile_summary" (String.join (truthyToks w.s1)), ?_, Or.inl ⟨_, rfl⟩⟩
        unfold llm_stream
        rw [herr]
      | some e =>
        refine ⟨truthyToks w.s1, Event.error "profile_summary" e, ?_, Or.inr ⟨_, rfl⟩⟩
        unfold llm_stream
        rw [herr]
    · rw [shape_ok_events lp resume rpdf w hx hr hc,
        eventsFor_block_other (show "profile_summary" ≠ "deep_research" from by decide),
        eventsFor_block_self,
        eventsFor_block_other (show "fitness_eval" ≠ "deep_research" from by decide),
        eventsFor_block_other (show "strategy" ≠ "deep_research" from by decide),
        eventsFor_terminator, List.append_nil]
      cases herr : w.s2.err with
      | none =>
        refine ⟨truthyToks w.s2,
          Event.done "deep_research" (String.join (truthyToks w.s2)), ?_, Or.inl ⟨_, rfl⟩⟩
        unfold llm_stream
        rw [herr]
      | some e =>
        refine ⟨truthyToks w.s2, Event.error "deep_research" e, ?_, Or.inr ⟨_, rfl⟩⟩
        unfold llm_stream
        rw [herr]
    · rw [shape_ok_events lp resume rpdf w hx hr hc,
        eventsFor_block_other (show "profile_summary" ≠ "fitness_eval" from by decide),
        eventsFor_block_other (show "deep_research" ≠ "fitness_eval" from by decide),
        eventsFor_block_self,
        eventsFor_block_other (show "strategy" ≠ "fitness_eval" from by decide),
        eventsFor_terminator, List.append_nil]
      cases herr : w.s3.err with
      | none =>
        refine ⟨truthyToks w.s3,
          Event.done "fitness_eval" (String.join (truthyToks w.s3)), ?_, Or.inl ⟨_, rfl⟩⟩
        unfold llm_stream
        rw [herr]
      | some e =>
        refine ⟨truthyToks w.s3, Event.error "fitness_eval" e, ?_, Or.inr ⟨_, rfl⟩⟩
        unfold llm_stream
        rw [herr]
    · rw [shape_ok_events lp resume rpdf w hx hr hc,
        eventsFor_block_other (show "profile_summary" ≠ "strategy" from by decide),
        eventsFor_block_other (show "deep_research" ≠ "strategy" from by decide),
        eventsFor_block_other (show "fitness_eval" ≠ "strategy" from by decide),
        eventsFor_block_self,
        eventsFor_terminator, List.append_nil]
      cases herr : w.s4.err with
      | none =>
        refine ⟨truthyToks w.s4,
          Event.done "strategy" (String.join (truthyToks w.s4)), ?_, Or.inl ⟨_, rfl⟩⟩
        unfold llm_stream
        rw [herr]
      | some e =>
        refine ⟨truthyToks w.s4, Event.error "strategy" e, ?_, Or.inr ⟨_, rfl⟩⟩
        unfold llm_stream
        rw [herr]

def isRunningB : Event → Bool
  | .running _ => true
  | _ => false

/-- C1 counterexample: on a request whose primary document extracts to empty
text the key `profile_summary` appears in the stream (one `error` event) but
receives no `running` event at all, refuting "exactly one `running` event"
as universally stated. -/
theorem C1_counterexample :
    eventsFor "profile_summary"
        (run_pipeline (Pdf.pages []) "" none
          ⟨some "sk-test", ⟨[], none⟩, ⟨[], none⟩, ⟨[], none⟩, ⟨[], none⟩⟩).events =
      [Event.error "profile_summary" ("LinkedIn PDF: " ++ emptyPdfMsg)] ∧
    (eventsFor "profile_summary"
        (run_pipeline (Pdf.pages []) "" none
          ⟨some "sk-test", ⟨[], none⟩, ⟨[], none⟩, ⟨[], none⟩, ⟨[], none⟩⟩).events).any
      isRunningB = false := by
  decide

/-- C1 witness: the non-aborted branch instantiated on a concrete successful
run and the aborted branch on an empty document. -/
theorem C1_witness :
    (∃ toks term, eventsFor "profile_summary"
        (run_pipeline (Pdf.pages [some "doc"]) "" none
          ⟨some "sk-test", ⟨[some "a"], none⟩, ⟨[], none⟩, ⟨[], none⟩, ⟨[], none⟩⟩).events =
        Event.running "profile_summary" ::
          (List.map (Event.token "profile_summary") toks ++ [term]) ∧
      ((∃ o, term = Event.done "profile_summary" o) ∨
        ∃ m, term = Event.error "profile_summary" m)) ∧
    ∃ m, eventsFor "profile_summary"
        (run_pipeline (Pdf.pages []) "" none
          ⟨some "sk-test", ⟨[], none⟩, ⟨[], none⟩, ⟨[], none⟩, ⟨[], none⟩⟩).events =
      [Event.error "profile_summary" m] :=
  ⟨(C1_per_key_grammar (Pdf.pages [some "doc"]) "" none
      ⟨some "sk-test", ⟨[some "a"], none⟩, ⟨[], none⟩, ⟨[], none⟩, ⟨[], none⟩⟩
      "profile_summary" (by decide)).1 "doc" "" rfl rfl rfl,
    (C1_per_key_grammar (Pdf.pages []) "" none
      ⟨some "sk-test", ⟨[], none⟩, ⟨[], none⟩, ⟨[], none⟩, ⟨[], none⟩⟩
      "profile_summary" (by decide)).2 (Or.inl ⟨emptyPdfMsg, rfl⟩)⟩

theorem errorEvents_term : errorEvents [Event.terminator] = [] := rfl

/-- Shared helper: on the non-aborted path the stream is the four blocks
followed by exactly one terminator. -/
theorem terminator_split_ok (lp : Pdf) (resume : String) (rpdf : Option Pdf) (w : World)
    {lt R : String}
    (hx : extract_pdf_text lp = .ok lt)
    (hr : resumeOf resume rpdf = .ok R)
    (hc : get_client w.apiKey = .ok ()) :
    ∃ pre, (run_pipeline lp resume rpdf w).events = pre ++ [Event.terminator] ∧
      Event.terminator ∉ pre := by
  refine ⟨Event.running "profile_summary" ::
      (llm_stream "profile_summary" w.s1 ++ Event.running "deep_research" ::
        (llm_stream "deep_research" w.s2 ++ Event.running "fitness_eval" ::
          (llm_stream "fitness_eval" w.s3 ++ Event.running "strategy" ::
            llm_stream "strategy" w.s4))), ?_, ?_⟩
  · rw [shape_ok_events lp resume rpdf w hx hr hc]
    simp [List.append_assoc]
  · intro hmem
    rcases List.mem_cons.mp hmem with h | hmem
    · exact Event.noConfusion h
    rcases List.mem_append.mp hmem with h | hmem
    · exact terminator_not_mem_llm _ _ h
    rcases List.mem_cons.mp hmem with h | hmem
    · exact Event.noConfusion h
    rcases List.mem_append.mp hmem with h | hmem
    · exact terminator_not_mem_llm _ _ h
    rcases List.mem_cons.mp hmem with h | hmem
    · exact Event.noConfusion h
    rcases List.mem_append.mp hmem with h | hmem
    · exact terminator_not_mem_llm _ _ h
    rcases List.mem_cons.mp hmem with h | hmem
    · exact Event.noConfusion h
    exact terminator_not_mem_llm _ _ hmem

/-- C2: every request accepted into the pipeline — including every failure
path of extraction, client initialisation and step streaming — yields a
stream with exactly one terminator chunk, and it is the last chunk. -/
theorem C2_terminator_exactly_once (lp : Pdf) (resume : String) (rpdf : Option Pdf)
    (w : World) :
    ∃ pre, (run_pipeline lp resume rpdf w).events = pre ++ [Event.terminator] ∧
      Event.terminator ∉ pre := by
  rcases hx : extract_pdf_text lp with e | lt
  · refine ⟨AGENT_KEYS.map (fun k => Event.error k ("LinkedIn PDF: " ++ e)), ?_, ?_⟩
    · rw [shape_abort_linkedin lp resume rpdf w hx]
      rfl
    · intro h
      obtain ⟨a, _, ha⟩ := List.mem_map.mp h
      exact Event.noConfusion ha
  rcases hr : resumeOf resume rpdf with e | R
  · refine ⟨AGENT_KEYS.map (fun k => Event.error k ("Resume PDF: " ++ e)), ?_, ?_⟩
    · rw [shape_abort_resume lp resume rpdf w hx hr]
      rfl
    · intro h
      obtain ⟨a, _, ha⟩ := List.mem_map.mp h
      exact Event.noConfusion ha
  rcases hc : get_client w.apiKey with e | u
  · refine ⟨AGENT_KEYS.map (fun k => Event.error k e), ?_, ?_⟩
    · rw [shape_abort_client lp resume rpdf w hx hr hc]
      rfl
    · intro h
      obtain ⟨a, _, ha⟩ := List.mem_map.mp h
      exact Event.noConfusion ha
  cases u
  exact terminator_split_ok lp resume rpdf w hx hr hc

/-- C3: when a step's token stream completes normally, joining the `token`
values of its `token` chunks in emission order is exactly the `output` of
its single `done` chunk. -/
theorem C3_tokens_join_done (k : String) (b : StreamSpec) (h : b.err = none) :
    doneOutputs (llm_stream k b) = [String.join (tokenVals (llm_stream k b))] := by
  rw [doneOutputs_llm k b h, tokenVals_llm]

/-- C3 witness at a concrete stream (with a `None` delta and an empty-string
delta that the loop skips). -/
theorem C3_witness :
    (⟨[some "Hel", none, some "", some "lo"], none⟩ : StreamSpec).err = none ∧
    doneOutputs (llm_stream "profile_summary" ⟨[some "Hel", none, some "", some "lo"], none⟩) =
      [String.join (tokenVals
        (llm_stream "profile_summary" ⟨[some "Hel", none, some "", some "lo"], none⟩))] :=
  ⟨rfl, C3_tokens_join_done "profile_summary" ⟨[some "Hel", none, some "", some "lo"], none⟩ rfl⟩

/-- C4: when primary-document extraction, resume-document extraction, or
client initialisation (missing credential) fails, every one of the four step
keys receives exactly one `error` event — prefixed `LinkedIn PDF: ` resp.
`Resume PDF: ` for the extraction cases and unprefixed for the credential
case — no `running`/`token`/`done` event is emitted for any key, no model
call is made, and the stream still ends with the terminator. -/
theorem C4_abort_fanout (lp : Pdf) (resume : String) (rpdf : Option Pdf) (w : World) :
    (∀ e, extract_pdf_text lp = .error e →
      run_pipeline lp resume rpdf w =
        { events := AGENT_KEYS.map (fun k => Event.error k ("LinkedIn PDF: " ++ e)) ++
            [Event.terminator],
          calls := [] }) ∧
    (∀ lt rp e, extract_pdf_text lp = .ok lt → rpdf = some rp →
      extract_pdf_text rp = .error e →
      run_pipeline lp resume rpdf w =
        { events := AGENT_KEYS.map (fun k => Event.error k ("Resume PDF: " ++ e)) ++
            [Event.terminator],
          calls := [] }) ∧
    (∀ lt R, extract_pdf_text lp = .ok lt → resumeOf resume rpdf = .ok R →
      w.apiKey.getD "" = "" →
      run_pipeline lp resume rpdf w =
        { events := AGENT_KEYS.map
            (fun k => Event.error k "OPENAI_API_KEY is not set.") ++ [Event.terminator],
          calls := [] }) := by
  refine ⟨?_, ?_, ?_⟩
  · intro e hx
    rw [shape_abort_linkedin lp resume rpdf w hx]
    rfl
  · intro lt rp e hx hrp hre
    rw [shape_abort_resume lp resume rpdf w hx (by rw [hrp]; exact hre)]
    rfl
  · intro lt R hx hr hkey
    rw [shape_abort_client lp resume rpdf w hx hr (by unfold get_client; rw [if_pos hkey])]
    rfl

/-- C4 witness: the missing-credential case on a concrete request. -/
theorem C4_witness :
    run_pipeline (Pdf.pages [some "doc"]) "" none
        ⟨none, ⟨[], none⟩, ⟨[], none⟩, ⟨[], none⟩, ⟨[], none⟩⟩ =
      { events := AGENT_KEYS.map
          (fun k => Event.error k "OPENAI_API_KEY is not set.") ++ [Event.terminator],
        calls := [] } :=
  (C4_abort_fanout (Pdf.pages [some "doc"]) "" none
      ⟨none, ⟨[], none⟩, ⟨[], none⟩, ⟨[], none⟩, ⟨[], none⟩⟩).2.2
    "doc" "" rfl rfl rfl

/-- C5: on a non-aborted run, for any combination of per-step stream
outcomes — in particular whichever single step's token stream fails — the
stream's `error` events are exactly those of the failed steps, each on its
own key (so one step's failure yields an `error` only on that step's key);
all four calls are still made, the later prompts built from the (possibly
partial or empty) accumulated outputs of the earlier steps; and the stream
still reaches the terminator. -/
theorem C5_step_failure_isolated (lp : Pdf) (resume : String) (rpdf : Option Pdf)
    (w : World) {lt R : String}
    (hx : extract_pdf_text lp = .ok lt)
    (hr : resumeOf resume rpdf = .ok R)
    (hc : get_client w.apiKey = .ok ()) :
    errorEvents (run_pipeline lp resume rpdf w).events =
        streamErr "profile_summary" w.s1 ++ streamErr "deep_research" w.s2 ++
          streamErr "fitness_eval" w.s3 ++ streamErr "strategy" w.s4 ∧
    (run_pipeline lp resume rpdf w).calls.length = 4 ∧
    ((run_pipeline lp resume rpdf w).calls)[1]? =
      some ("deep_research", SYS_RESEARCHER, user2 (String.join (truthyToks w.s1))) ∧
    ((run_pipeline lp resume rpdf w).calls)[2]? =
      some ("fitness_eval", SYS_EVALUATOR,
        user3 (rbOf R) (String.join (truthyToks w.s1)) (String.join (truthyToks w.s2))) ∧
    ((run_pipeline lp resume rpdf w).calls)[3]? =
      some ("strategy", SYS_STRATEGIST,
        user4 (rbOf R) (String.join (truthyToks w.s1)) (String.join (truthyToks w.s2))
          (String.join (truthyToks w.s3))) ∧
    ∃ pre, (run_pipeline lp resume rpdf w).events = pre ++ [Event.terminator] := by
  refine ⟨?_, ?_, ?_, ?_, ?_, ?_⟩
  · rw [shape_ok_events lp resume rpdf w hx hr hc,
      errorEvents_cons_running, errorEvents_append,
      errorEvents_cons_running, errorEvents_append,
      errorEvents_cons_running, errorEvents_append,
      errorEvents_cons_running, errorEvents_append,
      errorEvents_term,
      errorEvents_llm, errorEvents_llm, errorEvents_llm, errorEvents_llm]
    simp [List.append_assoc]
  · rw [shape_ok_calls lp resume rpdf w hx hr hc]
    rfl
  · rw [shape_ok_calls lp resume rpdf w hx hr hc]
    rfl
  · rw [shape_ok_calls lp resume rpdf w hx hr hc]
    rfl
  · rw [shape_ok_calls lp resume rpdf w hx hr hc]
    rfl
  · obtain ⟨pre, hpre, _⟩ := terminator_split_ok lp resume rpdf w hx hr hc
    exact ⟨pre, hpre⟩

/-- C5 witness: here the failing step is step 2 — it delivers one token and
dies; the error lands only on `deep_research`, while steps 3 and 4 still run
on its partial output. -/
theorem C5_witness :
    errorEvents (run_pipeline (Pdf.pages [some "doc"]) "" none
        ⟨some "sk-test", ⟨[some "t1"], none⟩, ⟨[some "pa"], some "boom"⟩,
          ⟨[], none⟩, ⟨[], none⟩⟩).events =
      streamErr "profile_summary" ⟨[some "t1"], none⟩ ++
        streamErr "deep_research" ⟨[some "pa"], some "boom"⟩ ++
        streamErr "fitness_eval" ⟨[], none⟩ ++ streamErr "strategy" ⟨[], none⟩ ∧
    (run_pipeline (Pdf.pages [some "doc"]) "" none
        ⟨some "sk-test", ⟨[some "t1"], none⟩, ⟨[some "pa"], some "boom"⟩,
          ⟨[], none⟩, ⟨[], none⟩⟩).calls.length = 4 ∧
    ((run_pipeline (Pdf.pages [some "doc"]) "" none
        ⟨some "sk-test", ⟨[some "t1"], none⟩, ⟨[some "pa"], some "boom"⟩,
          ⟨[], none⟩, ⟨[], none⟩⟩).calls)[1]? =
      some ("deep_research", SYS_RESEARCHER,
        user2 (String.join (truthyToks ⟨[some "t1"], none⟩))) ∧
    ((run_pipeline (Pdf.pages [some "doc"]) "" none
        ⟨some "sk-test", ⟨[some "t1"], none⟩, ⟨[some "pa"], some "boom"⟩,
          ⟨[], none⟩, ⟨[], none⟩⟩).calls)[2]? =
      some ("fitness_eval", SYS_EVALUATOR,
        user3 (rbOf "") (String.join (truthyToks ⟨[some "t1"], none⟩))
          (String.join (truthyToks ⟨[some "pa"], some "boom"⟩))) ∧
    ((run_pipeline (Pdf.pages [some "doc"]) "" none
        ⟨some "sk-test", ⟨[some "t1"], none⟩, ⟨[some "pa"], some "boom"⟩,
          ⟨[], none⟩, ⟨[], none⟩⟩).calls)[3]? =
      some ("strategy", SYS_STRATEGIST,
        user4 (rbOf "") (String.join (truthyToks ⟨[some "t1"], none⟩))
          (String.join (truthyToks ⟨[some "pa"], some "boom"⟩))
          (String.join (truthyToks ⟨[], none⟩))) ∧
    ∃ pre, (run_pipeline (Pdf.pages [some "doc"]) "" none
        ⟨some "sk-test", ⟨[some "t1"], none⟩, ⟨[some "pa"], some "boom"⟩,
          ⟨[], none⟩, ⟨[], none⟩⟩).events = pre ++ [Event.terminator] :=
  C5_step_failure_isolated (Pdf.pages [some "doc"]) "" none
    ⟨some "sk-test", ⟨[some "t1"], none⟩, ⟨[some "pa"], some "boom"⟩,
      ⟨[], none⟩, ⟨[], none⟩⟩
    rfl rfl rfl

/-- C6: the step-2 (`deep_research`) prompt is a function of step 1's
captured output alone — two non-aborted runs that agree on the captured step
1 text build identical step-2 calls, whatever their extracted primary
documents were; the prompt is `user2` of that text, which never embeds the
raw document. -/
theorem C6_step2_data_minimization
    (lp : Pdf) (resume : String) (rpdf : Option Pdf) (w : World)
    (lp' : Pdf) (resume' : String) (rpdf' : Option Pdf) (w' : World)
    {lt R lt' R' : String}
    (hx : extract_pdf_text lp = .ok lt) (hr : resumeOf resume rpdf = .ok R)
    (hc : get_client w.apiKey = .ok ())
    (hx' : extract_pdf_text lp' = .ok lt') (hr' : resumeOf resume' rpdf' = .ok R')
    (hc' : get_client w'.apiKey = .ok ())
    (hsame : String.join (truthyToks w.s1) = String.join (truthyToks w'.s1)) :
    ((run_pipeline lp resume rpdf w).calls)[1]? =
        some ("deep_research", SYS_RESEARCHER, user2 (String.join (truthyToks w.s1))) ∧
    ((run_pipeline lp resume rpdf w).calls)[1]? =
      ((run_pipeline lp' resume' rpdf' w').calls)[1]? := by
  rw [shape_ok_calls lp resume rpdf w hx hr hc,
    shape_ok_calls lp' resume' rpdf' w' hx' hr' hc']
  refine ⟨rfl, ?_⟩
  rw [hsame]
  rfl

/-- C6 witness: the two runs extract different primary documents and receive
step-1 tokens chunked differently, yet the captured step-1 texts agree and
the step-2 calls coincide. -/
theorem C6_witness :
    ((run_pipeline (Pdf.pages [some "doc one"]) "" none
        ⟨some "sk-test", ⟨[some "A", some "B"], none⟩, ⟨[], none⟩, ⟨[], none⟩,
          ⟨[], none⟩⟩).calls)[1]? =
      some ("deep_research", SYS_RESEARCHER,
        user2 (String.join (truthyToks ⟨[some "A", some "B"], none⟩))) ∧
    ((run_pipeline (Pdf.pages [some "doc one"]) "" none
        ⟨some "sk-test", ⟨[some "A", some "B"], none⟩, ⟨[], none⟩, ⟨[], none⟩,
          ⟨[], none⟩⟩).calls)[1]? =
      ((run_pipeline (Pdf.pages [some "doc two"]) "other resume" none
        ⟨some "sk-test", ⟨[some "AB"], none⟩, ⟨[], none⟩, ⟨[], none⟩,
          ⟨[], none⟩⟩).calls)[1]? :=
  C6_step2_data_minimization (Pdf.pages [some "doc one"]) "" none
    ⟨some "sk-test", ⟨[some "A", some "B"], none⟩, ⟨[], none⟩, ⟨[], none⟩, ⟨[], none⟩⟩
    (Pdf.pages [some "doc two"]) "other resume" none
    ⟨some "sk-test", ⟨[some "AB"], none⟩, ⟨[], none⟩, ⟨[], none⟩, ⟨[], none⟩⟩
    rfl rfl rfl rfl rfl rfl rfl

/-- C7: a supplied resume document supersedes any supplied resume text (the
`resume` argument does not occur in the conclusion of the first part), and
the resume block used by the step-3 and step-4 prompts is the resolved
resume text verbatim under the `CANDIDATE RESUME:` heading when it is
non-empty after trimming, and the fixed generic-evaluation placeholder
otherwise. -/
theorem C7_resume_block (lp : Pdf) (resume : String) (rpdf : Option Pdf) (w : World)
    {lt : String}
    (hx : extract_pdf_text lp = .ok lt)
    (hc : get_client w.apiKey = .ok ()) :
    (∀ rp t, rpdf = some rp → extract_pdf_text rp = .ok t →
      ((run_pipeline lp resume rpdf w).calls)[2]? =
        some ("fitness_eval", SYS_EVALUATOR,
          user3 (rbOf t) (String.join (truthyToks w.s1)) (String.join (truthyToks w.s2))) ∧
      ((run_pipeline lp resume rpdf w).calls)[3]? =
        some ("strategy", SYS_STRATEGIST,
          user4 (rbOf t) (String.join (truthyToks w.s1)) (String.join (truthyToks w.s2))
            (String.join (truthyToks w.s3)))) ∧
    (rpdf = none →
      ((run_pipeline lp resume rpdf w).calls)[2]? =
        some ("fitness_eval", SYS_EVALUATOR,
          user3 (rbOf resume) (String.join (truthyToks w.s1))
            (String.join (truthyToks w.s2))) ∧
      ((run_pipeline lp resume rpdf w).calls)[3]? =
        some ("strategy", SYS_STRATEGIST,
          user4 (rbOf resume) (String.join (truthyToks w.s1))
            (String.join (truthyToks w.s2)) (String.join (truthyToks w.s3)))) ∧
    (∀ s, (pyStrip s ≠ "" → rbOf s = "CANDIDATE RESUME:\n" ++ s) ∧
      (pyStrip s = "" → rbOf s = "No resume provided — evaluate generally.")) := by
  refine ⟨?_, ?_, ?_⟩
  · intro rp t hrp hrt
    have hr : resumeOf resume rpdf = .ok t := by rw [hrp]; exact hrt
    rw [shape_ok_calls lp resume rpdf w hx hr hc]
    exact ⟨rfl, rfl⟩
  · intro hrp
    have hr : resumeOf resume rpdf = .ok resume := by rw [hrp]; rfl
    rw [shape_ok_calls lp resume rpdf w hx hr hc]
    exact ⟨rfl, rfl⟩
  · intro s
    constructor
    · intro hne
      unfold rbOf
      rw [if_pos hne]
    · intro he
      unfold rbOf
      rw [if_neg (by simp [he])]

/-- C7 witness: a resume document extracting to `RESUME DOC` supersedes the
supplied resume text `typed resume`. -/
theorem C7_witness :
    ((run_pipeline (Pdf.pages [some "doc"]) "typed resume" (some (Pdf.pages [some "RESUME DOC"]))
        ⟨some "sk-test", ⟨[], none⟩, ⟨[], none⟩, ⟨[], none⟩, ⟨[], none⟩⟩).calls)[2]? =
      some ("fitness_eval", SYS_EVALUATOR,
        user3 (rbOf "RESUME DOC") (String.join (truthyToks ⟨[], none⟩))
          (String.join (truthyToks ⟨[], none⟩))) ∧
    ((run_pipeline (Pdf.pages [some "doc"]) "typed resume" (some (Pdf.pages [some "RESUME DOC"]))
        ⟨some "sk-test", ⟨[], none⟩, ⟨[], none⟩, ⟨[], none⟩, ⟨[], none⟩⟩).calls)[3]? =
      some ("strategy", SYS_STRATEGIST,
        user4 (rbOf "RESUME DOC") (String.join (truthyToks ⟨[], none⟩))
          (String.join (truthyToks ⟨[], none⟩)) (String.join (truthyToks ⟨[], none⟩))) :=
  (C7_resume_block (Pdf.pages [some "doc"]) "typed resume"
      (some (Pdf.pages [some "RESUME DOC"]))
      ⟨some "sk-test", ⟨[], none⟩, ⟨[], none⟩, ⟨[], none⟩, ⟨[], none⟩⟩
      rfl rfl).1
    (Pdf.pages [some "RESUME DOC"]) "RESUME DOC" rfl rfl

/-- C8 counterexample: the extractor's empty-document failure message is the
literal from the source, not the spec's paraphrase "document is empty or
contains no extractable text". -/
theorem C8_counterexample :
    pyStrip (pagesJoined [some " "]) = "" ∧
    extract_pdf_text (Pdf.pages [some " "]) = Except.error emptyPdfMsg ∧
    emptyPdfMsg ≠ "document is empty or contains no extractable text" :=
  ⟨rfl, rfl, by decide⟩

/-- C8 (amended): the extractor joins the per-page texts in page order with a
blank-line separator and trims the result; it fails — with the fixed message
`PDF is empty or image-only (scanned PDF not supported).` — exactly when that
trimmed concatenation is empty, and otherwise returns the trimmed
concatenation.  Determinism is definitional: the extractor is a function of
the parsed payload. -/
theorem C8_extract_characterization (ps : List (Option String)) :
    (extract_pdf_text (Pdf.pages ps) = Except.error emptyPdfMsg ↔
      pyStrip (pagesJoined ps) = "") ∧
    (pyStrip (pagesJoined ps) ≠ "" →
      extract_pdf_text (Pdf.pages ps) = Except.ok (pyStrip (pagesJoined ps))) := by
  have hred : extract_pdf_text (Pdf.pages ps) =
      (if pyStrip (pagesJoined ps) = "" then Except.error emptyPdfMsg
        else Except.ok (pyStrip (pagesJoined ps))) := rfl
  by_cases h : pyStrip (pagesJoined ps) = ""
  · rw [hred, if_pos h]
    exact ⟨⟨fun _ => h, fun _ => rfl⟩, fun hne => absurd h hne⟩
  · rw [hred, if_neg h]
    exact ⟨⟨fun habs => Except.noConfusion habs, fun he => absurd he h⟩, fun _ => rfl⟩

/-- C8 witness: a non-empty page extracts to its trimmed text. -/
theorem C8_witness :
    pyStrip (pagesJoined [some " hi "]) ≠ "" ∧
    extract_pdf_text (Pdf.pages [some " hi "]) =
      Except.ok (pyStrip (pagesJoined [some " hi "])) :=
  ⟨by decide, (C8_extract_characterization [some " hi "]).2 (by decide)⟩

/-- C9 counterexample: a body with no `linkedin_pdf` field is rejected by the
framework's body validation with HTTP 422, not 400. -/
theorem C9_counterexample :
    handle_run ⟨none, some "resume text", none⟩ =
      HttpOutcome.errorResponse 422 "Field required" ∧
    ∀ s, handle_run ⟨none, some "resume text", none⟩ ≠ HttpOutcome.errorResponse 400 s := by
  constructor
  · rfl
  · intro s h
    rw [show handle_run ⟨none, some "resume text", none⟩ =
      HttpOutcome.errorResponse 422 "Field required" from rfl] at h
    injection h with h1 h2
    exact absurd h1 (by decide)

/-- C9 (amended): a request body without `linkedin_pdf` is rejected with a
client-error response (HTTP 422, the framework's validation failure), a body
whose `linkedin_pdf` is present but empty gets the handler's HTTP 400, and
in either case no stream is opened — a stream response is produced only for
a non-empty `linkedin_pdf`. -/
theorem C9_missing_field (r : RawRun) :
    (r.linkedin_pdf = none →
      handle_run r = HttpOutcome.errorResponse 422 "Field required") ∧
    (∀ lp, r.linkedin_pdf = some lp → lp = "" →
      handle_run r = HttpOutcome.errorResponse 400 "linkedin_pdf is required.") ∧
    (∀ req, handle_run r = HttpOutcome.streamResponse req → req.linkedin_pdf ≠ "") := by
  refine ⟨?_, ?_, ?_⟩
  · intro h
    unfold handle_run validate_request
    rw [h]
  · intro lp hl he
    subst he
    unfold handle_run validate_request
    rw [hl]
    rfl
  · intro req h he
    unfold handle_run validate_request at h
    rcases hl : r.linkedin_pdf with _ | lp
    · rw [hl] at h
      exact HttpOutcome.noConfusion h
    · rw [hl] at h
      by_cases hlp : lp = ""
      · subst hlp
        exact HttpOutcome.noConfusion h
      · change (if lp = "" then HttpOutcome.errorResponse 400 "linkedin_pdf is required."
          else HttpOutcome.streamResponse
            ⟨lp, r.resume.getD "", r.resume_pdf.getD ""⟩) = HttpOutcome.streamResponse req at h
        rw [if_neg hlp] at h
        injection h with hreq
        rw [← hreq] at he
        exact hlp he

/-- C9 witness: the handler's own 400 on a present-but-empty `linkedin_pdf`,
with no stream opened. -/
theorem C9_witness :
    handle_run ⟨some "", none, none⟩ =
      HttpOutcome.errorResponse 400 "linkedin_pdf is required." :=
  (C9_missing_field ⟨some "", none, none⟩).2.1 "" rfl rfl

/-- C10: the serialised-chunk substring test `'"status": "token"' in chunk`
matches every token chunk and never a `running`, `done` or `error` chunk of
the four step keys (JSON escaping forbids a naked quote inside a string
value); consequently the relay loop re-parses exactly the token chunks,
never crashes, and for a normally completing step the captured text equals
the `output` of the step's `done` chunk. -/
theorem C10_token_test_exact (k : String) (hk : k ∈ AGENT_KEYS) :
    (∀ t, occursIn needleChars (serializeEvent (Event.token k t)) = true) ∧
    (occursIn needleChars (serializeEvent (Event.running k)) = false) ∧
    (∀ o, occursIn needleChars (serializeEvent (Event.done k o)) = false) ∧
    (∀ e, occursIn needleChars (serializeEvent (Event.error k e)) = false) ∧
    (∀ b : StreamSpec,
      stepRelay (llm_stream k b) = (llm_stream k b, some (truthyToks b)) ∧
      (b.err = none →
        doneOutputs (llm_stream k b) = [String.join (truthyToks b)])) :=
  ⟨fun t => needle_in_token k t, needle_not_running hk,
    fun o => needle_not_done hk o, fun e => needle_not_error hk e,
    fun b => ⟨stepRelay_llm k hk b, fun h => doneOutputs_llm k b h⟩⟩

/-- C10 witness: the characterisation applied to the `profile_summary` key
and a concrete stream whose error text even spells the needle — escaping
keeps it from matching. -/
theorem C10_witness :
    occursIn needleChars
        (serializeEvent (Event.token "profile_summary" "hello")) = true ∧
    occursIn needleChars
      (serializeEvent (Event.done "profile_summary" "x \"status\": \"token\" y")) = false :=
  ⟨(C10_token_test_exact "profile_summary" (by decide)).1 "hello",
    (C10_token_test_exact "profile_summary" (by decide)).2.2.1 "x \"status\": \"token\" y"⟩

end Oracle
